import Mathlib

/-!
# Verification of the chunked parallel summarization pipeline (`review.py`)

A shallow embedding of the pipeline in `src/review.py`:

* strings are modelled as `List Char` (abbreviated `Str`), so that the
  prefix tests the source performs with `str.startswith` become
  `List.isPrefixOf`;
* values parsed from a JSON response body are modelled by the inductive
  `JVal`; Python subscripting `d[k]`, truthiness `if not x`, and `len(x)`
  are modelled by `pyGet`, `pyTruthy` and `pyLen`, each raising through
  `Except PyExc`;
* the asynchronous calls are modelled by behaviour functions: a chunk
  attempt is answered by a `ChunkResp` (the response of the inference
  backend, or the transport fault the attempt raised), and a final
  synthesis attempt by a `FinalAttempt`;
* retry loops are translated with an explicit fuel argument equal to the
  number of attempts the `while` condition admits, and the traces record
  the number of invocations and the backoff waits so that the counting
  claims can be stated;
* the `langchain` `RecursiveCharacterTextSplitter` is not part of this
  repository's sources, so the Segmenter (`segment`) is modelled from the
  spec (its doc comment gives the exact sentence followed).
-/

/-- Strings of the modelled program: lists of characters. -/
abbrev Str := List Char

/-- Conversion from a Lean string literal into the model's string type. -/
def str (s : String) : Str := s.toList

/-- Python `str(n)` for a natural number (chunk ids, attempt counts). -/
def natStr (n : Nat) : Str := (Nat.repr n).toList

/-- `MAX_RETRIES = 2` (review.py line 28). -/
def MAX_RETRIES : Nat := 2

/-- `RETRY_BACKOFF_BASE = 5` seconds (review.py line 29). -/
def RETRY_BACKOFF_BASE : Nat := 5

/-- `CHUNK_SIZE = 40000` (review.py line 26). -/
def CHUNK_SIZE : Nat := 40000

/-- `CHUNK_OVERLAP = 100` (review.py line 27). -/
def CHUNK_OVERLAP : Nat := 100

/-- A JSON value as produced by `response.json()`. -/
inductive JVal where
  | jnull
  | jbool (b : Bool)
  | jnum (n : Int)
  | jstr (s : Str)
  | jarr (elems : List JVal)
  | jobj (fields : List (Str × JVal))

/-- The Python exceptions the modelled fragments can raise. -/
inductive PyExc where
  | keyError (key : Str)
  | typeError (msg : Str)
  | valueError (msg : Str)
  | attributeError (msg : Str)
  | otherExc (msg : Str)

/-- Python truthiness of a parsed JSON value (`if not final_response`). -/
def pyTruthy : JVal → Bool
  | .jnull => false
  | .jbool b => b
  | .jnum n => decide (n ≠ 0)
  | .jstr s => !s.isEmpty
  | .jarr l => !l.isEmpty
  | .jobj l => !l.isEmpty

/-- Python subscripting `v[k]` with a string key: succeeds on a dict that
has the key, raises `KeyError` on a dict without it, and `TypeError` on
any non-dict value. -/
def pyGet (v : JVal) (k : Str) : Except PyExc JVal :=
  match v with
  | .jobj fields =>
    match fields.lookup k with
    | some x => .ok x
    | none => .error (.keyError k)
  | _ => .error (.typeError (str "object is not subscriptable"))

/-- Python `len(v)`: defined on strings, lists and dicts, `TypeError`
otherwise. -/
def pyLen : JVal → Except PyExc Nat
  | .jstr s => .ok s.length
  | .jarr l => .ok l.length
  | .jobj l => .ok l.length
  | _ => .error (.typeError (str "object has no len"))

/-- `response_data["message"]["content"]` followed by the `len(summary)`
of the logging call — the success path shared by `summarize_chunk_wrapper`
(lines 356-360) and `generate_final_summary` (lines 317-319). -/
def extractContent (j : JVal) : Except PyExc JVal := do
  let msg ← pyGet j (str "message")
  let content ← pyGet msg (str "content")
  let _ ← pyLen content
  pure content

/-- `str(e)` of a modelled exception, as interpolated into error strings. -/
def pyExcMsg : PyExc → Str
  | .keyError k => Char.ofNat 39 :: (k ++ [Char.ofNat 39])
  | .typeError m => m
  | .valueError m => m
  | .attributeError m => m
  | .otherExc m => m

mutual

/-- Python `repr` of a parsed JSON value (used by `str` on containers). -/
def pyRepr : JVal → Str
  | .jnull => str "None"
  | .jbool true => str "True"
  | .jbool false => str "False"
  | .jnum n => (n.repr).toList
  | .jstr s => Char.ofNat 39 :: (s ++ [Char.ofNat 39])
  | .jarr l => '[' :: (pyReprList l ++ [']'])
  | .jobj l => Char.ofNat 123 :: (pyReprFields l ++ [Char.ofNat 125])

/-- `repr` of the elements of a list, comma separated. -/
def pyReprList : List JVal → Str
  | [] => []
  | [v] => pyRepr v
  | v :: vs => pyRepr v ++ str ", " ++ pyReprList vs

/-- `repr` of the entries of a dict, comma separated. -/
def pyReprFields : List (Str × JVal) → Str
  | [] => []
  | [kv] => (Char.ofNat 39 :: (kv.1 ++ [Char.ofNat 39])) ++ str ": " ++ pyRepr kv.2
  | kv :: kvs =>
    (Char.ofNat 39 :: (kv.1 ++ [Char.ofNat 39])) ++ str ": " ++ pyRepr kv.2
      ++ str ", " ++ pyReprFields kvs

end

/-- Python `str(v)` as used by an f-string: a string stays itself, any
other value is rendered with `repr`-style formatting. -/
def pyToStr : JVal → Str
  | .jstr s => s
  | v => pyRepr v

/-- The behaviour of one attempt of `summarize_chunk_wrapper`: what the
inference backend (and the transport layer) does for that request. -/
inductive ChunkResp where
  /-- 2xx response whose body parses to the JSON value `j`. -/
  | body (j : JVal)
  /-- 2xx response whose body fails to parse (`response.json()` raises). -/
  | jsonError (m : Str)
  /-- `httpx.TimeoutException`. -/
  | timeout (m : Str)
  /-- `httpx.ConnectError`. -/
  | connectError (m : Str)
  /-- `httpx.HTTPStatusError` from `raise_for_status` (carries the code). -/
  | statusError (code : Nat)
  /-- another `httpx.HTTPError`; its handler reads `he.response`, which is
  absent, so the handler itself raises. -/
  | transportError (m : Str)
  /-- any other exception raised during the attempt. -/
  | otherError (m : Str)

/-- `"Error in chunk {chunk_id}: " + tail` — the strings the inner
`except` handlers of `summarize_chunk_wrapper` return (lines 364-377). -/
def errInChunk (chunkId : Nat) (tail : Str) : Str :=
  str "Error in chunk " ++ natStr chunkId ++ str ": " ++ tail

/-- `"Error processing chunk {chunk_id}: {str(e)}"` — the string the outer
`except Exception` handler returns (line 383). -/
def errProcChunk (chunkId : Nat) (e : PyExc) : Str :=
  str "Error processing chunk " ++ natStr chunkId ++ str ": " ++ pyExcMsg e

/-- The body of `summarize_chunk_wrapper` up to (but excluding) the outer
`except Exception` handler: either a returned value or a raised exception.
-/
def summarize_chunk_inner (chunkId : Nat) (resp : ChunkResp) : Except PyExc JVal :=
  match resp with
  | .body j => extractContent j
  | .jsonError m => .error (.valueError m)
  | .timeout _ =>
    .ok (.jstr (errInChunk chunkId
      (str "Request timed out. Consider increasing the timeout or reducing chunk size.")))
  | .connectError _ =>
    .ok (.jstr (errInChunk chunkId
      (str "Could not connect to Ollama API. Check if Ollama is running correctly.")))
  | .statusError code =>
    .ok (.jstr (errInChunk chunkId
      (str "HTTP error from Ollama API. Status code: " ++ natStr code)))
  | .transportError m => .error (.attributeError m)
  | .otherError m => .error (.otherExc m)

/-- `summarize_chunk_wrapper` (review.py lines 322-383): the inner body
wrapped in the outer `except Exception` handler, which converts any
raised exception into an `"Error processing chunk ..."` string. -/
def summarize_chunk_wrapper (chunkId : Nat) (resp : ChunkResp) : JVal :=
  match summarize_chunk_inner chunkId resp with
  | .ok v => v
  | .error e => .jstr (errProcChunk chunkId e)

/-- The terminal state a task reaches as seen by `asyncio.gather(...,
return_exceptions=True)`: either a returned value or a raised exception.
-/
inductive PyResult where
  | ret (v : JVal)
  | exc (m : Str)

/-- `isinstance(result, str) and result.startswith("Error")` — the soft
error test of the retry loop (line 129) and of the success filter
(line 218). -/
def isSoftJ : JVal → Bool
  | .jstr s => (str "Error").isPrefixOf s
  | _ => false

/-- Whether one attempt of the chunk retry loop counts as failed: a raised
exception always does, a returned value does exactly when it is a string
starting with `"Error"`. -/
def attemptFailed : PyResult → Bool
  | .ret v => isSoftJ v
  | .exc _ => true

/-- What `summarize_chunk_with_retry` produces: the returned value, the
number of times the wrapped operation was invoked, and the list of
backoff sleeps performed (in seconds, in order). -/
structure RetryTrace where
  result : JVal
  calls : Nat
  waits : List Nat

/-- The `"Error processing chunk {chunk_id} after {max_retries+1}
attempts: {str(e)}"` string of line 164. -/
def errAfterAttempts (chunkId maxRetries : Nat) (m : Str) : Str :=
  str "Error processing chunk " ++ natStr chunkId ++ str " after "
    ++ natStr (maxRetries + 1) ++ str " attempts: " ++ m

/-- How the chunk retry loop renders the failure of its final attempt:
a soft error string is returned as is (line 142), a raised exception is
wrapped into the `"... after ... attempts"` string (line 164). -/
def renderLastFailure (chunkId maxRetries : Nat) : PyResult → JVal
  | .ret v => v
  | .exc m => .jstr (errAfterAttempts chunkId maxRetries m)

/-- The `while retries <= max_retries` loop of
`summarize_chunk_with_retry` (lines 120-164).  `retries` is the loop
variable; `fuel` bounds the remaining iterations and is chosen at the
entry point so that it never runs out (the fuel-exhausted value mirrors
the unreachable post-loop return of line 166). -/
def summarize_chunk_with_retry_go (op : Nat → PyResult) (chunkId maxRetries : Nat) :
    Nat → Nat → RetryTrace
  | _, 0 =>
    { result := .jstr (str "Error: Unexpected end of retry loop for chunk " ++ natStr chunkId),
      calls := 0, waits := [] }
  | retries, fuel + 1 =>
    match op retries with
    | .ret v =>
      if isSoftJ v then
        if retries + 1 ≤ maxRetries then
          let t := summarize_chunk_with_retry_go op chunkId maxRetries (retries + 1) fuel
          { result := t.result, calls := t.calls + 1,
            waits := RETRY_BACKOFF_BASE * 2 ^ retries :: t.waits }
        else { result := v, calls := 1, waits := [] }
      else { result := v, calls := 1, waits := [] }
    | .exc m =>
      if retries + 1 ≤ maxRetries then
        let t := summarize_chunk_with_retry_go op chunkId maxRetries (retries + 1) fuel
        { result := t.result, calls := t.calls + 1,
          waits := RETRY_BACKOFF_BASE * 2 ^ retries :: t.waits }
      else { result := renderLastFailure chunkId maxRetries (.exc m), calls := 1, waits := [] }

/-- `summarize_chunk_with_retry` (review.py lines 115-166), with the
wrapped operation abstracted as the function `op` giving the terminal
outcome of each attempt. -/
def summarize_chunk_with_retry (op : Nat → PyResult) (chunkId maxRetries : Nat) : RetryTrace :=
  summarize_chunk_with_retry_go op chunkId maxRetries 0 (maxRetries + 1)

/-- The behaviour of one attempt of the final-synthesis request loop in
`generate_final_summary`. -/
inductive FinalAttempt where
  /-- 2xx response whose body parses to `j` (`final_response = response.json()`). -/
  | body (j : JVal)
  /-- an `httpx.HTTPError` was raised (including `raise_for_status`). -/
  | httpErr (m : Str)
  /-- any other exception was raised inside the `try` (e.g. a JSON decode
  error). -/
  | exn (m : Str)

/-- What `generate_final_summary` produces: the returned value or the
exception it propagates, the number of requests issued, and the backoff
sleeps performed. -/
structure FinalTrace where
  result : Except PyExc JVal
  calls : Nat
  waits : List Nat

/-- Sentinel of line 313 (`if not final_response`). -/
def failedNoneSentinel : Str :=
  str "Failed to generate final summary. Please check the logs for details."

/-- Sentinel of line 307 (retry budget exhausted on `httpx.HTTPError`). -/
def failedMultiSentinel : Str :=
  str "Failed to generate final summary after multiple attempts. Please check the logs for details."

/-- Sentinel of line 310 (`except Exception`). -/
def failedUnexpSentinel : Str :=
  str "Failed to generate final summary due to an unexpected error. Please check the logs for details."

/-- The `while retry_count <= MAX_RETRIES` loop of
`generate_final_summary` (lines 269-310) together with the code after the
loop (lines 312-319).  On a parsed body the loop breaks, the falsy check
of line 312 runs, and then `final_response['message']['content']` is
evaluated OUTSIDE any `try`, so its `KeyError`/`TypeError` propagates
(modelled by an `.error` result).  The fuel-exhausted value mirrors the
unreachable exit of the loop without a break. -/
def generate_final_summary_go (att : Nat → FinalAttempt) (maxRetries : Nat) :
    Nat → Nat → FinalTrace
  | _, 0 => { result := .ok (.jstr failedNoneSentinel), calls := 0, waits := [] }
  | rc, fuel + 1 =>
    match att rc with
    | .body j =>
      if pyTruthy j then
        match extractContent j with
        | .ok v => { result := .ok v, calls := 1, waits := [] }
        | .error e => { result := .error e, calls := 1, waits := [] }
      else { result := .ok (.jstr failedNoneSentinel), calls := 1, waits := [] }
    | .httpErr _ =>
      if rc + 1 ≤ maxRetries then
        let t := generate_final_summary_go att maxRetries (rc + 1) fuel
        { result := t.result, calls := t.calls + 1, waits := 10 * 2 ^ rc :: t.waits }
      else { result := .ok (.jstr failedMultiSentinel), calls := 1, waits := [] }
    | .exn _ => { result := .ok (.jstr failedUnexpSentinel), calls := 1, waits := [] }

/-- `generate_final_summary` (review.py lines 234-319).  `combined` is the
combined chunk summaries embedded in the user prompt; the behaviour of
the backend is abstracted by `att`.  The retry budget is the module
constant `MAX_RETRIES`, kept as a parameter here so the counting claims
can quantify over it. -/
def generate_final_summary (combined : Str) (att : Nat → FinalAttempt) (maxRetries : Nat) :
    FinalTrace :=
  generate_final_summary_go att maxRetries 0 (maxRetries + 1)

/-- `f"Error processing chunk {i+1}: {str(result)}"` — how the dispatcher
renders a task that raised (lines 203-205); a returned value is kept as
is (line 207). -/
def renderGathered (i : Nat) (r : PyResult) : JVal :=
  match r with
  | .ret v => v
  | .exc m => .jstr (str "Error processing chunk " ++ natStr (i + 1) ++ str ": " ++ m)

/-- The `processed_summaries` list (lines 201-209): one entry per chunk,
in task order, with raised exceptions converted to error strings.
`asyncio.gather` returns one result per task in task order; task `i`'s
terminal outcome is `taskOut i`. -/
def processedSummaries (n : Nat) (taskOut : Nat → PyResult) : List JVal :=
  (List.range n).map (fun i => renderGathered i (taskOut i))

/-- `f"Section {i+1}:\n{summary}"` (line 225). -/
def sectionLine (i : Nat) (v : JVal) : Str :=
  str "Section " ++ natStr (i + 1) ++ str ":\n" ++ pyToStr v

/-- The labeled sections, in index order (line 225). -/
def sectionsOf (summaries : List JVal) : List Str :=
  summaries.enum.map (fun p => sectionLine p.1 p.2)

/-- `combined_chunk_summaries` (lines 224-226). -/
def combineSummaries (summaries : List JVal) : Str :=
  List.intercalate (str "\n\n") (sectionsOf summaries)

/-- Sentinel of line 222 (no successful summaries). -/
def noMeaningfulSentinel : Str :=
  str "No meaningful summary could be generated. All chunks failed processing."

/-- What `summarize_text_parallel` produces: the returned value or the
exception it propagates, the number of final-synthesis requests issued,
and the combined summary passed to the final synthesis (`none` when it
short-circuits). -/
structure PipelineTrace where
  result : Except PyExc JVal
  finalCalls : Nat
  combinedSent : Option Str

/-- `summarize_text_parallel` from the gather onwards (review.py lines
198-231): collect one outcome per chunk, filter the successes, either
short-circuit with the sentinel or issue the final synthesis on the
combined summaries.  The `except` around the gather (lines 211-213) is
unreachable with `return_exceptions=True` absent cancellation and is not
modelled. -/
def summarize_text_parallel (chunks : List Str) (taskOut : Nat → PyResult)
    (att : Nat → FinalAttempt) : PipelineTrace :=
  let summaries := processedSummaries chunks.length taskOut
  let successful := summaries.filter (fun v => !(isSoftJ v))
  if successful.isEmpty then
    { result := .ok (.jstr noMeaningfulSentinel), finalCalls := 0, combinedSent := none }
  else
    let combined := combineSummaries summaries
    let t := generate_final_summary combined att MAX_RETRIES
    { result := t.result, finalCalls := t.calls, combinedSent := some combined }

/-- The separator priority list `["\n\n", "\n", ". ", " ", ""]` passed to
the splitter (review.py line 177). -/
def SEPARATORS : List Str := [str "\n\n", str "\n", str ". ", str " ", str ""]

/-- Split `text` at every occurrence of the non-empty separator `sep`,
removing the separators.  `acc` holds the (reversed) characters of the
piece being accumulated. -/
def splitOnSep (sep : Str) (acc : Str) : Str → List Str
  | [] => [acc.reverse]
  | c :: cs =>
    if h : 1 ≤ sep.length ∧ sep.isPrefixOf (c :: cs) then
      acc.reverse :: splitOnSep sep [] ((c :: cs).drop sep.length)
    else
      splitOnSep sep (c :: acc) cs
termination_by t => t.length
decreasing_by
  · simp only [List.length_drop, List.length_cons]
    omega
  · simp only [List.length_cons]
    omega

/-- Modelled from the spec (§4.1): the pieces a single separator yields —
the empty separator splits at character level, any other separator splits
at each of its occurrences. -/
def splitPieces (text sep : Str) : List Str :=
  if sep.isEmpty then text.map (fun c => [c]) else splitOnSep sep [] text

/-- Modelled from the spec (§4.1), for the `langchain`
`RecursiveCharacterTextSplitter` whose code is not part of this
repository: walk the priority list of separators "choosing the first
separator that yields pieces each ≤ maxChunkChars"; if none qualifies the
text stays one unsplittable unit. -/
def chooseSplit (text : Str) (maxChunkChars : Nat) : List Str → Str × List Str
  | [] => ([], [text])
  | sep :: rest =>
    let ps := splitPieces text sep
    if ps.all (fun p => decide (p.length ≤ maxChunkChars)) then (sep, ps)
    else chooseSplit text maxChunkChars rest

/-- The trailing `n` characters of `l` (the overlap carried into the next
chunk). -/
def lastChars (n : Nat) (l : Str) : Str := l.drop (l.length - n)

/-- Modelled from the spec (§4.1): pieces are "merged back up to just
under the size budget with a trailing overlap of `overlapChars`
characters carried into the next chunk"; the separator is re-inserted
between merged pieces.  When even the overlap would push the next chunk
over the budget the overlap is dropped, honouring the spec's invariant
that no chunk may exceed `maxChunkChars`. -/
def mergePieces (sep : Str) (maxChunkChars overlapChars : Nat) (cur : Str) :
    List Str → List Str
  | [] => [cur]
  | p :: ps =>
    let cand := cur ++ sep ++ p
    if cand.length ≤ maxChunkChars then mergePieces sep maxChunkChars overlapChars cand ps
    else
      let cand2 := lastChars overlapChars cur ++ sep ++ p
      if cand2.length ≤ maxChunkChars then
        cur :: mergePieces sep maxChunkChars overlapChars cand2 ps
      else
        cur :: mergePieces sep maxChunkChars overlapChars p ps

/-- Modelled from the spec (§4.1), standing in for
`RecursiveCharacterTextSplitter(...).split_text` (review.py lines
174-179), which is library code outside this repository: an empty input
yields no chunks; otherwise the first separator whose pieces all fit the
budget is chosen and the pieces are merged back up to the budget with
trailing overlap. -/
def segmentText (text : Str) (maxChunkChars overlapChars : Nat) : List Str :=
  if text.isEmpty then []
  else
    match chooseSplit text maxChunkChars SEPARATORS with
    | (_, []) => []
    | (sep, p :: ps) => mergePieces sep maxChunkChars overlapChars p ps

/-- The pipeline entry point `summarize_text_parallel` taken from the
text split onwards (review.py lines 169-231): segment the text, run the
retried chunk summarizer over every chunk, aggregate.  `chunkBehav i a`
is the backend's behaviour on attempt `a` for chunk index `i` (0-based);
`att` is its behaviour on the final synthesis attempts. -/
def summarize (text : Str) (chunkBehav : Nat → Nat → ChunkResp)
    (att : Nat → FinalAttempt) : PipelineTrace :=
  let chunks := segmentText text CHUNK_SIZE CHUNK_OVERLAP
  summarize_text_parallel chunks
    (fun i => .ret (summarize_chunk_with_retry
      (fun a => .ret (summarize_chunk_wrapper (i + 1) (chunkBehav i a)))
      (i + 1) MAX_RETRIES).result)
    att


/-! ## Lemmas about the chunk retry loop -/

theorem retry_go_step_failed (op : Nat → PyResult) (chunkId maxRetries retries fuel : Nat)
    (hf : attemptFailed (op retries) = true) (hle : retries + 1 ≤ maxRetries) :
    summarize_chunk_with_retry_go op chunkId maxRetries retries (fuel + 1) =
      { result := (summarize_chunk_with_retry_go op chunkId maxRetries (retries + 1) fuel).result,
        calls := (summarize_chunk_with_retry_go op chunkId maxRetries (retries + 1) fuel).calls + 1,
        waits := RETRY_BACKOFF_BASE * 2 ^ retries ::
          (summarize_chunk_with_retry_go op chunkId maxRetries (retries + 1) fuel).waits } := by
  cases hop : op retries with
  | ret w =>
    have hsoft : isSoftJ w = true := by
      rw [hop] at hf
      simpa [attemptFailed] using hf
    rw [summarize_chunk_with_retry_go, hop]
    simp only [hsoft, if_true, hle, if_pos]
  | exc m =>
    rw [summarize_chunk_with_retry_go, hop]
    simp only [hle, if_pos]

theorem retry_go_step_failed_last (op : Nat → PyResult) (chunkId maxRetries retries fuel : Nat)
    (hf : attemptFailed (op retries) = true) (hnle : ¬ (retries + 1 ≤ maxRetries)) :
    summarize_chunk_with_retry_go op chunkId maxRetries retries (fuel + 1) =
      { result := renderLastFailure chunkId maxRetries (op retries), calls := 1, waits := [] } := by
  cases hop : op retries with
  | ret w =>
    have hsoft : isSoftJ w = true := by
      rw [hop] at hf
      simpa [attemptFailed] using hf
    rw [summarize_chunk_with_retry_go, hop]
    simp only [hsoft, if_true, hnle, if_false, renderLastFailure]
  | exc m =>
    rw [summarize_chunk_with_retry_go, hop]
    simp only [hnle, if_false]

theorem retry_go_step_ok (op : Nat → PyResult) (chunkId maxRetries retries fuel : Nat) (v : JVal)
    (hop : op retries = .ret v) (hv : isSoftJ v = false) :
    summarize_chunk_with_retry_go op chunkId maxRetries retries (fuel + 1) =
      { result := v, calls := 1, waits := [] } := by
  rw [summarize_chunk_with_retry_go, hop]
  simp only [hv, if_false, Bool.false_eq_true]

theorem retry_go_succeeds (op : Nat → PyResult) (chunkId maxRetries : Nat) (v : JVal)
    (hv : isSoftJ v = false) :
    ∀ (k : Nat), ∀ (retries fuel : Nat), k + 1 ≤ fuel → retries + k ≤ maxRetries →
      (∀ i, i < k → attemptFailed (op (retries + i)) = true) →
      op (retries + k) = .ret v →
      (summarize_chunk_with_retry_go op chunkId maxRetries retries fuel).result = v ∧
      (summarize_chunk_with_retry_go op chunkId maxRetries retries fuel).calls = k + 1 := by
  intro k
  induction k with
  | zero =>
    intro retries fuel hfuel _ _ hsucc
    match fuel, hfuel with
    | f + 1, _ =>
      rw [Nat.add_zero] at hsucc
      rw [retry_go_step_ok op chunkId maxRetries retries f v hsucc hv]
      exact ⟨rfl, rfl⟩
  | succ k ih =>
    intro retries fuel hfuel hbound hfail hsucc
    match fuel, hfuel with
    | f + 1, hfuel =>
      have hf0 : attemptFailed (op retries) = true := by
        have h0 := hfail 0 (Nat.succ_pos k)
        simpa using h0
      have hle : retries + 1 ≤ maxRetries := by omega
      have hstep := ih (retries + 1) f (by omega) (by omega)
        (fun i hi => by
          have h1 := hfail (i + 1) (by omega)
          have h2 : retries + (i + 1) = retries + 1 + i := by omega
          rwa [h2] at h1)
        (by
          have h2 : retries + (k + 1) = retries + 1 + k := by omega
          rwa [h2] at hsucc)
      rw [retry_go_step_failed op chunkId maxRetries retries f hf0 hle]
      exact ⟨hstep.1, by rw [hstep.2]⟩

theorem retry_go_allfail (op : Nat → PyResult) (chunkId maxRetries : Nat) :
    ∀ (f : Nat), ∀ (retries : Nat), retries + (f + 1) = maxRetries + 1 →
      (∀ i, retries ≤ i → i ≤ maxRetries → attemptFailed (op i) = true) →
      (summarize_chunk_with_retry_go op chunkId maxRetries retries (f + 1)).result
          = renderLastFailure chunkId maxRetries (op maxRetries) ∧
      (summarize_chunk_with_retry_go op chunkId maxRetries retries (f + 1)).calls = f + 1 := by
  intro f
  induction f with
  | zero =>
    intro retries hsum hall
    have hr : retries = maxRetries := by omega
    subst hr
    have hf0 : attemptFailed (op retries) = true := hall retries (Nat.le_refl _) (Nat.le_refl _)
    rw [retry_go_step_failed_last op chunkId retries retries 0 hf0 (by omega)]
    exact ⟨rfl, rfl⟩
  | succ f ih =>
    intro retries hsum hall
    have hf0 : attemptFailed (op retries) = true := hall retries (Nat.le_refl _) (by omega)
    have hle : retries + 1 ≤ maxRetries := by omega
    have hstep := ih (retries + 1) (by omega) (fun i h1 h2 => hall i (by omega) h2)
    rw [retry_go_step_failed op chunkId maxRetries retries (f + 1) hf0 hle]
    exact ⟨hstep.1, by rw [hstep.2]⟩

/-! ## Prefix facts about the error strings -/

theorem isPrefixOf_append_left (a b c : Str) (h : a.isPrefixOf b = true) :
    a.isPrefixOf (b ++ c) = true := by
  rw [List.isPrefixOf_iff_prefix] at h ⊢
  exact h.trans (List.prefix_append b c)

theorem isSoftJ_errInChunk (chunkId : Nat) (tail : Str) :
    isSoftJ (.jstr (errInChunk chunkId tail)) = true := by
  simp only [isSoftJ, errInChunk]
  exact isPrefixOf_append_left _ _ _ (isPrefixOf_append_left _ _ _
    (isPrefixOf_append_left _ _ _ (by decide)))

theorem isSoftJ_errProcChunk (chunkId : Nat) (e : PyExc) :
    isSoftJ (.jstr (errProcChunk chunkId e)) = true := by
  simp only [isSoftJ, errProcChunk]
  exact isPrefixOf_append_left _ _ _ (isPrefixOf_append_left _ _ _
    (isPrefixOf_append_left _ _ _ (by decide)))

theorem isSoftJ_errAfterAttempts (chunkId maxRetries : Nat) (m : Str) :
    isSoftJ (.jstr (errAfterAttempts chunkId maxRetries m)) = true := by
  simp only [isSoftJ, errAfterAttempts]
  exact isPrefixOf_append_left _ _ _ (isPrefixOf_append_left _ _ _
    (isPrefixOf_append_left _ _ _ (isPrefixOf_append_left _ _ _
      (isPrefixOf_append_left _ _ _ (by decide)))))

theorem isSoftJ_renderGathered_exc (i : Nat) (m : Str) :
    isSoftJ (renderGathered i (.exc m)) = true := by
  simp only [isSoftJ, renderGathered]
  exact isPrefixOf_append_left _ _ _ (isPrefixOf_append_left _ _ _
    (isPrefixOf_append_left _ _ _ (by decide)))

/-! ## C1 -/

/-- C1: for an operation wrapped by `summarize_chunk_with_retry` with
retry budget `maxAttempts` — if the operation fails (by soft-error result
or by raised fault) on exactly the first `k` attempts and then succeeds,
with `maxAttempts ≥ k`, the loop returns the success and the operation
was invoked exactly `k + 1` times; if the operation fails on every
attempt, it is invoked exactly `maxAttempts + 1` times and the rendering
of the last failure (a soft error verbatim, a raised fault wrapped in the
`"... after ... attempts"` string) is returned. -/
theorem C1_retry_controller (op : Nat → PyResult) (chunkId maxAttempts : Nat) :
    (∀ (k : Nat) (v : JVal), k ≤ maxAttempts → isSoftJ v = false →
      (∀ i, i < k → attemptFailed (op i) = true) → op k = .ret v →
      (summarize_chunk_with_retry op chunkId maxAttempts).result = v ∧
      (summarize_chunk_with_retry op chunkId maxAttempts).calls = k + 1) ∧
    ((∀ i, i ≤ maxAttempts → attemptFailed (op i) = true) →
      (summarize_chunk_with_retry op chunkId maxAttempts).result
          = renderLastFailure chunkId maxAttempts (op maxAttempts) ∧
      (summarize_chunk_with_retry op chunkId maxAttempts).calls = maxAttempts + 1) := by
  constructor
  · intro k v hk hv hfail hsucc
    exact retry_go_succeeds op chunkId maxAttempts v hv k 0 (maxAttempts + 1) (by omega)
      (by omega) (fun i hi => by simpa using hfail i hi) (by simpa using hsucc)
  · intro hall
    exact retry_go_allfail op chunkId maxAttempts maxAttempts 0 (by omega)
      (fun i _ h2 => hall i h2)

theorem C1_retry_controller_witness :
    (summarize_chunk_with_retry
      (fun a => if a < 2 then PyResult.ret (.jstr (str "Error: busy"))
        else PyResult.ret (.jstr (str "A good summary"))) 7 2).result
        = .jstr (str "A good summary") ∧
    (summarize_chunk_with_retry
      (fun a => if a < 2 then PyResult.ret (.jstr (str "Error: busy"))
        else PyResult.ret (.jstr (str "A good summary"))) 7 2).calls = 3 ∧
    (summarize_chunk_with_retry (fun _ => PyResult.exc (str "boom")) 7 2).calls = 3 := by
  refine ⟨?_, ?_, ?_⟩
  · exact ((C1_retry_controller
      (fun a => if a < 2 then PyResult.ret (.jstr (str "Error: busy"))
        else PyResult.ret (.jstr (str "A good summary"))) 7 2).1 2
      (.jstr (str "A good summary")) (by omega) (by decide) (by decide) rfl).1
  · exact ((C1_retry_controller
      (fun a => if a < 2 then PyResult.ret (.jstr (str "Error: busy"))
        else PyResult.ret (.jstr (str "A good summary"))) 7 2).1 2
      (.jstr (str "A good summary")) (by omega) (by decide) (by decide) rfl).2
  · exact ((C1_retry_controller (fun _ => PyResult.exc (str "boom")) 7 2).2
      (fun i _ => rfl)).2

/-! ## C6 -/

theorem retry_go_congr (op op' : Nat → PyResult) (chunkId chunkId' maxRetries : Nat)
    (h : ∀ i, attemptFailed (op i) = attemptFailed (op' i)) :
    ∀ (fuel retries : Nat),
      (summarize_chunk_with_retry_go op chunkId maxRetries retries fuel).calls
          = (summarize_chunk_with_retry_go op' chunkId' maxRetries retries fuel).calls ∧
      (summarize_chunk_with_retry_go op chunkId maxRetries retries fuel).waits
          = (summarize_chunk_with_retry_go op' chunkId' maxRetries retries fuel).waits := by
  intro fuel
  induction fuel with
  | zero => intro retries; exact ⟨rfl, rfl⟩
  | succ fuel ih =>
    intro retries
    by_cases hf : attemptFailed (op retries) = true
    · have hf' : attemptFailed (op' retries) = true := by rw [← h retries]; exact hf
      by_cases hle : retries + 1 ≤ maxRetries
      · rw [retry_go_step_failed op chunkId maxRetries retries fuel hf hle,
          retry_go_step_failed op' chunkId' maxRetries retries fuel hf' hle]
        exact ⟨by rw [(ih (retries + 1)).1], by rw [(ih (retries + 1)).2]⟩
      · rw [retry_go_step_failed_last op chunkId maxRetries retries fuel hf hle,
          retry_go_step_failed_last op' chunkId' maxRetries retries fuel hf' hle]
        exact ⟨rfl, rfl⟩
    · have hf2 : attemptFailed (op retries) = false := by
        cases h2 : attemptFailed (op retries) with
        | false => rfl
        | true => exact absurd h2 hf
      have hf2' : attemptFailed (op' retries) = false := by rw [← h retries]; exact hf2
      obtain ⟨v, hop, hv⟩ : ∃ v, op retries = .ret v ∧ isSoftJ v = false := by
        cases hop : op retries with
        | ret v =>
          refine ⟨v, rfl, ?_⟩
          rw [hop] at hf2
          simpa [attemptFailed] using hf2
        | exc m =>
          rw [hop] at hf2
          simp [attemptFailed] at hf2
      obtain ⟨v', hop', hv'⟩ : ∃ v', op' retries = .ret v' ∧ isSoftJ v' = false := by
        cases hop' : op' retries with
        | ret v' =>
          refine ⟨v', rfl, ?_⟩
          rw [hop'] at hf2'
          simpa [attemptFailed] using hf2'
        | exc m =>
          rw [hop'] at hf2'
          simp [attemptFailed] at hf2'
      rw [retry_go_step_ok op chunkId maxRetries retries fuel v hop hv,
        retry_go_step_ok op' chunkId' maxRetries retries fuel v' hop' hv']
      exact ⟨rfl, rfl⟩

theorem generate_final_summary_exn_first (combined : Str) (att : Nat → FinalAttempt)
    (maxRetries : Nat) (m : Str) (h0 : att 0 = .exn m) :
    generate_final_summary combined att maxRetries =
      { result := .ok (.jstr failedUnexpSentinel), calls := 1, waits := [] } := by
  rw [generate_final_summary, generate_final_summary_go, h0]

/-- C6 counterexample: the final-synthesis loop does NOT treat every
failure as retryable — an operation that fails on every attempt by a
non-HTTP raised fault is invoked exactly once, not `MAX_RETRIES + 1`
times, so the claim that both retry loops retry every class of failure up
to the budget is false on the code. -/
theorem C6_counterexample :
    (generate_final_summary (str "combined")
        (fun _ => FinalAttempt.exn (str "boom")) MAX_RETRIES).calls = 1 ∧
    ¬ ((generate_final_summary (str "combined")
        (fun _ => FinalAttempt.exn (str "boom")) MAX_RETRIES).calls = MAX_RETRIES + 1) := by
  decide

/-- C6 (amended): in the chunk retry loop a raised fault and an
error-tagged result are treated identically — the invocation count and the
backoff schedule depend only on which attempts failed, not on the kind of
failure.  In the final-synthesis loop, however, only HTTP errors are
retried: a first-attempt non-HTTP raised fault makes the loop return the
"unexpected error" sentinel immediately after a single invocation,
without retry. -/
theorem C6_failure_uniformity :
    (∀ (op op' : Nat → PyResult) (chunkId chunkId' maxAttempts : Nat),
      (∀ i, attemptFailed (op i) = attemptFailed (op' i)) →
      (summarize_chunk_with_retry op chunkId maxAttempts).calls
          = (summarize_chunk_with_retry op' chunkId' maxAttempts).calls ∧
      (summarize_chunk_with_retry op chunkId maxAttempts).waits
          = (summarize_chunk_with_retry op' chunkId' maxAttempts).waits) ∧
    (∀ (combined : Str) (att : Nat → FinalAttempt) (maxAttempts : Nat) (m : Str),
      att 0 = .exn m →
      generate_final_summary combined att maxAttempts =
        { result := .ok (.jstr failedUnexpSentinel), calls := 1, waits := [] }) := by
  constructor
  · intro op op' chunkId chunkId' maxAttempts h
    exact retry_go_congr op op' chunkId chunkId' maxAttempts h (maxAttempts + 1) 0
  · exact generate_final_summary_exn_first

theorem C6_failure_uniformity_witness :
    (summarize_chunk_with_retry (fun _ => PyResult.ret (.jstr (str "Error: x"))) 1 2).calls
        = (summarize_chunk_with_retry (fun _ => PyResult.exc (str "x")) 9 2).calls ∧
    (generate_final_summary (str "c") (fun _ => FinalAttempt.exn (str "boom")) 2).calls = 1 := by
  refine ⟨(C6_failure_uniformity.1 _ _ 1 9 2 (fun i => rfl)).1, ?_⟩
  rw [C6_failure_uniformity.2 (str "c") _ 2 (str "boom") rfl]

/-! ## Lemmas about the parallel pipeline -/

theorem processedSummaries_length (n : Nat) (taskOut : Nat → PyResult) :
    (processedSummaries n taskOut).length = n := by
  simp [processedSummaries]

theorem processedSummaries_getElem (n : Nat) (taskOut : Nat → PyResult) (i : Nat)
    (hi : i < n) :
    (processedSummaries n taskOut)[i]? = some (renderGathered i (taskOut i)) := by
  simp [processedSummaries, List.getElem?_range hi]

theorem stp_all_failed (chunks : List Str) (taskOut : Nat → PyResult)
    (att : Nat → FinalAttempt)
    (h : ∀ i, i < chunks.length → isSoftJ (renderGathered i (taskOut i)) = true) :
    summarize_text_parallel chunks taskOut att =
      { result := .ok (.jstr noMeaningfulSentinel), finalCalls := 0, combinedSent := none } := by
  have hfilter : (processedSummaries chunks.length taskOut).filter (fun v => !(isSoftJ v))
      = [] := by
    rw [List.filter_eq_nil_iff]
    intro a ha
    simp only [processedSummaries, List.mem_map, List.mem_range] at ha
    obtain ⟨i, hi, rfl⟩ := ha
    simp [h i hi]
  simp [summarize_text_parallel, hfilter]

theorem stp_some_success (chunks : List Str) (taskOut : Nat → PyResult)
    (att : Nat → FinalAttempt) (i : Nat) (hi : i < chunks.length)
    (hs : isSoftJ (renderGathered i (taskOut i)) = false) :
    summarize_text_parallel chunks taskOut att =
      { result := (generate_final_summary
            (combineSummaries (processedSummaries chunks.length taskOut)) att
            MAX_RETRIES).result,
        finalCalls := (generate_final_summary
            (combineSummaries (processedSummaries chunks.length taskOut)) att
            MAX_RETRIES).calls,
        combinedSent := some (combineSummaries (processedSummaries chunks.length taskOut)) } := by
  have hmem : renderGathered i (taskOut i) ∈ processedSummaries chunks.length taskOut := by
    simp only [processedSummaries, List.mem_map, List.mem_range]
    exact ⟨i, hi, rfl⟩
  have hmemf : renderGathered i (taskOut i)
      ∈ (processedSummaries chunks.length taskOut).filter (fun v => !(isSoftJ v)) :=
    List.mem_filter.mpr ⟨hmem, by simp [hs]⟩
  have hne : ((processedSummaries chunks.length taskOut).filter
      (fun v => !(isSoftJ v))).isEmpty = false := by
    have hnil : (processedSummaries chunks.length taskOut).filter (fun v => !(isSoftJ v))
        ≠ [] := List.ne_nil_of_mem hmemf
    cases hn : ((processedSummaries chunks.length taskOut).filter
        (fun v => !(isSoftJ v))).isEmpty with
    | false => rfl
    | true => exact absurd (List.isEmpty_iff.mp hn) hnil
  simp [summarize_text_parallel, hne]

theorem generate_final_summary_body_first (combined : Str) (att : Nat → FinalAttempt)
    (maxRetries : Nat) (j : JVal) (h0 : att 0 = .body j) :
    (generate_final_summary combined att maxRetries).calls = 1 := by
  rw [generate_final_summary, generate_final_summary_go, h0]
  by_cases ht : pyTruthy j
  · simp only [ht, if_true]
    cases hx : extractContent j <;> simp [hx]
  · simp only [ht, if_false, Bool.false_eq_true]

/-- Whether the outcome the dispatcher records for chunk `i` is a failure
(the error-marked strings are exactly what the success filter of line 218
rejects). -/
def outcomeFailed (i : Nat) (r : PyResult) : Bool := isSoftJ (renderGathered i r)

theorem attemptFailed_false_ret (r : PyResult) (h : attemptFailed r = false) :
    ∃ v, r = .ret v ∧ isSoftJ v = false := by
  cases r with
  | ret v => exact ⟨v, rfl, by simpa [attemptFailed] using h⟩
  | exc m => simp [attemptFailed] at h

theorem retry_go_calls_pos (op : Nat → PyResult) (chunkId maxRetries : Nat) :
    ∀ (fuel retries : Nat), 1 ≤ fuel →
      1 ≤ (summarize_chunk_with_retry_go op chunkId maxRetries retries fuel).calls := by
  intro fuel retries hf
  match fuel, hf with
  | f + 1, _ =>
    by_cases hfail : attemptFailed (op retries) = true
    · by_cases hle : retries + 1 ≤ maxRetries
      · rw [retry_go_step_failed op chunkId maxRetries retries f hfail hle]
        exact Nat.succ_le_succ (Nat.zero_le _)
      · rw [retry_go_step_failed_last op chunkId maxRetries retries f hfail hle]
    · have hfalse : attemptFailed (op retries) = false := by
        cases h2 : attemptFailed (op retries) with
        | false => rfl
        | true => exact absurd h2 hfail
      obtain ⟨v, hop, hv⟩ := attemptFailed_false_ret (op retries) hfalse
      rw [retry_go_step_ok op chunkId maxRetries retries f v hop hv]

/-! ## C2 -/

/-- C2: for an input split into `N` chunks the dispatcher records exactly
`N` outcomes, the outcome at index `i` being exactly the rendering of
task `i`'s terminal state (success value, or a labeled error string for a
raised fault), independent of the other tasks; and the combined summary
is the intercalation of the `N` section lines in chunk-index order, the
section at index `i` being built from outcome `i`. -/
theorem C2_dispatch_alignment (chunks : List Str) (taskOut : Nat → PyResult) :
    (processedSummaries chunks.length taskOut).length = chunks.length ∧
    (∀ i, i < chunks.length →
      (processedSummaries chunks.length taskOut)[i]? = some (renderGathered i (taskOut i))) ∧
    (sectionsOf (processedSummaries chunks.length taskOut)).length = chunks.length ∧
    (∀ i, i < chunks.length →
      (sectionsOf (processedSummaries chunks.length taskOut))[i]?
          = some (sectionLine i (renderGathered i (taskOut i)))) ∧
    combineSummaries (processedSummaries chunks.length taskOut)
        = List.intercalate (str "\n\n") (sectionsOf (processedSummaries chunks.length taskOut)) := by
  refine ⟨processedSummaries_length _ _,
    fun i hi => processedSummaries_getElem _ _ i hi, ?_, ?_, rfl⟩
  · simp [sectionsOf, processedSummaries_length]
  · intro i hi
    simp [sectionsOf, List.getElem?_enum,
      processedSummaries_getElem chunks.length taskOut i hi]

theorem C2_dispatch_alignment_witness :
    (processedSummaries 2 (fun i => if i = 0 then PyResult.ret (.jstr (str "Good"))
        else PyResult.exc (str "boom"))).length = 2 ∧
    (sectionsOf (processedSummaries 2 (fun i => if i = 0 then PyResult.ret (.jstr (str "Good"))
        else PyResult.exc (str "boom"))))[0]?
      = some (sectionLine 0 (.jstr (str "Good"))) := by
  have h := C2_dispatch_alignment [str "x", str "y"]
    (fun i => if i = 0 then PyResult.ret (.jstr (str "Good")) else PyResult.exc (str "boom"))
  exact ⟨h.1, h.2.2.2.1 0 (by decide)⟩

/-! ## C3 -/

/-- C3: when every one of the `N` chunk outcomes is a failure the
pipeline returns the fixed "no meaningful summary" sentinel, issues no
final-synthesis request, and passes no combined summary to the backend.
-/
theorem C3_all_failed_sentinel (chunks : List Str) (taskOut : Nat → PyResult)
    (att : Nat → FinalAttempt)
    (h : ∀ i, i < chunks.length → outcomeFailed i (taskOut i) = true) :
    (summarize_text_parallel chunks taskOut att).result = .ok (.jstr noMeaningfulSentinel) ∧
    (summarize_text_parallel chunks taskOut att).finalCalls = 0 ∧
    (summarize_text_parallel chunks taskOut att).combinedSent = none := by
  rw [stp_all_failed chunks taskOut att h]
  exact ⟨rfl, rfl, rfl⟩

theorem C3_all_failed_sentinel_witness :
    (summarize_text_parallel [str "x", str "y"]
      (fun i => if i = 0 then PyResult.ret (.jstr (str "Error in chunk 1: timed out"))
        else PyResult.exc (str "boom"))
      (fun _ => FinalAttempt.body .jnull)).result = .ok (.jstr noMeaningfulSentinel) ∧
    (summarize_text_parallel [str "x", str "y"]
      (fun i => if i = 0 then PyResult.ret (.jstr (str "Error in chunk 1: timed out"))
        else PyResult.exc (str "boom"))
      (fun _ => FinalAttempt.body .jnull)).finalCalls = 0 := by
  have h := C3_all_failed_sentinel [str "x", str "y"]
    (fun i => if i = 0 then PyResult.ret (.jstr (str "Error in chunk 1: timed out"))
      else PyResult.exc (str "boom"))
    (fun _ => FinalAttempt.body .jnull) (by decide)
  exact ⟨h.1, h.2.1⟩

/-! ## C4 -/

/-- C4: when at least one chunk outcome is a success and the first
final-synthesis attempt reaches the backend (a parsed response body), the
pipeline issues exactly one final-synthesis request, passing the combined
summary built from ALL `N` outcomes: there are `N` section lines in
chunk-index order, the one at index `i` rendering outcome `i` (failures
appear as their inline error strings, not omitted), joined by blank
lines. -/
theorem C4_single_final_call (chunks : List Str) (taskOut : Nat → PyResult)
    (att : Nat → FinalAttempt) (i : Nat) (hi : i < chunks.length)
    (hs : outcomeFailed i (taskOut i) = false) (j : JVal) (h0 : att 0 = .body j) :
    (summarize_text_parallel chunks taskOut att).finalCalls = 1 ∧
    (summarize_text_parallel chunks taskOut att).combinedSent
        = some (combineSummaries (processedSummaries chunks.length taskOut)) ∧
    (sectionsOf (processedSummaries chunks.length taskOut)).length = chunks.length ∧
    (∀ k, k < chunks.length →
      (sectionsOf (processedSummaries chunks.length taskOut))[k]?
          = some (sectionLine k (renderGathered k (taskOut k)))) ∧
    combineSummaries (processedSummaries chunks.length taskOut)
        = List.intercalate (str "\n\n") (sectionsOf (processedSummaries chunks.length taskOut)) := by
  rw [stp_some_success chunks taskOut att i hi hs]
  refine ⟨generate_final_summary_body_first _ att MAX_RETRIES j h0, rfl, ?_, ?_, rfl⟩
  · simp [sectionsOf, processedSummaries_length]
  · intro k hk
    simp [sectionsOf, List.getElem?_enum,
      processedSummaries_getElem chunks.length taskOut k hk]

theorem C4_single_final_call_witness :
    (summarize_text_parallel [str "x", str "y"]
      (fun i => if i = 0 then PyResult.ret (.jstr (str "Good summary"))
        else PyResult.exc (str "boom"))
      (fun _ => FinalAttempt.body
        (.jobj [(str "message", .jobj [(str "content", .jstr (str "FINAL"))])]))).finalCalls
      = 1 ∧
    (sectionsOf (processedSummaries 2
      (fun i => if i = 0 then PyResult.ret (.jstr (str "Good summary"))
        else PyResult.exc (str "boom"))))[1]?
      = some (sectionLine 1 (renderGathered 1 (PyResult.exc (str "boom")))) := by
  have h := C4_single_final_call [str "x", str "y"]
    (fun i => if i = 0 then PyResult.ret (.jstr (str "Good summary"))
      else PyResult.exc (str "boom"))
    (fun _ => FinalAttempt.body
      (.jobj [(str "message", .jobj [(str "content", .jstr (str "FINAL"))])]))
    0 (by decide) (by decide)
    (.jobj [(str "message", .jobj [(str "content", .jstr (str "FINAL"))])]) rfl
  exact ⟨h.1, h.2.2.2.1 1 (by decide)⟩

/-! ## C7 -/

/-- C7: a returned string beginning with `"Error"` is treated as a soft
failure by the chunk retry loop — it triggers a retry while budget
remains (at least two invocations happen), after exhaustion it is
returned as the result having consumed the whole budget, and such a
result is then excluded from the successful summaries, so a run in which
every task yields such a string (even a legitimate summary that happens
to start with `"Error"`) short-circuits to the all-failed sentinel
without any final-synthesis call. -/
theorem C7_error_prefix_soft_failure :
    (∀ (op : Nat → PyResult) (chunkId maxAttempts : Nat) (v : JVal),
      op 0 = .ret v → isSoftJ v = true → 1 ≤ maxAttempts →
      2 ≤ (summarize_chunk_with_retry op chunkId maxAttempts).calls) ∧
    (∀ (v : JVal), isSoftJ v = true → ∀ (chunkId maxAttempts : Nat),
      (summarize_chunk_with_retry (fun _ => .ret v) chunkId maxAttempts).result = v ∧
      (summarize_chunk_with_retry (fun _ => .ret v) chunkId maxAttempts).calls
          = maxAttempts + 1) ∧
    (∀ (v : JVal), isSoftJ v = true → ∀ (chunks : List Str) (att : Nat → FinalAttempt),
      (summarize_text_parallel chunks (fun _ => .ret v) att).result
          = .ok (.jstr noMeaningfulSentinel) ∧
      (summarize_text_parallel chunks (fun _ => .ret v) att).finalCalls = 0) := by
  refine ⟨?_, ?_, ?_⟩
  · intro op chunkId maxAttempts v hop hv hma
    have h1 : attemptFailed (op 0) = true := by
      rw [hop]
      simpa [attemptFailed] using hv
    rw [summarize_chunk_with_retry,
      retry_go_step_failed op chunkId maxAttempts 0 maxAttempts h1 (by omega)]
    have h2 := retry_go_calls_pos op chunkId maxAttempts maxAttempts 1 (by omega)
    show 2 ≤ (summarize_chunk_with_retry_go op chunkId maxAttempts (0 + 1) maxAttempts).calls + 1
    rw [Nat.zero_add]
    omega
  · intro v hv chunkId maxAttempts
    have h := retry_go_allfail (fun _ => .ret v) chunkId maxAttempts maxAttempts 0 (by omega)
      (fun i _ _ => by simpa [attemptFailed] using hv)
    exact ⟨h.1, h.2⟩
  · intro v hv chunks att
    have h := stp_all_failed chunks (fun _ => .ret v) att
      (fun i _ => by simpa [renderGathered] using hv)
    rw [h]
    exact ⟨rfl, rfl⟩

theorem C7_error_prefix_soft_failure_witness :
    2 ≤ (summarize_chunk_with_retry
        (fun _ => PyResult.ret (.jstr (str "Error-correcting codes are robust"))) 3 2).calls ∧
    (summarize_chunk_with_retry
        (fun _ => PyResult.ret (.jstr (str "Error-correcting codes are robust"))) 3 2).result
      = .jstr (str "Error-correcting codes are robust") ∧
    (summarize_text_parallel [str "t"]
        (fun _ => PyResult.ret (.jstr (str "Error-correcting codes are robust")))
        (fun _ => FinalAttempt.body .jnull)).result = .ok (.jstr noMeaningfulSentinel) := by
  refine ⟨C7_error_prefix_soft_failure.1 _ 3 2 _ rfl (by decide) (by omega), ?_, ?_⟩
  · exact (C7_error_prefix_soft_failure.2.1 _ (by decide) 3 2).1
  · exact (C7_error_prefix_soft_failure.2.2 _ (by decide) [str "t"]
      (fun _ => FinalAttempt.body .jnull)).1

/-! ## C5 -/

/-- Whether an `Except` result is a returned string (i.e. neither a
propagated exception nor a returned non-string value). -/
def isOkStr : Except PyExc JVal → Bool
  | .ok (.jstr _) => true
  | _ => false

/-- Whether a parsed final-synthesis body leads to a returned string:
it is falsy (sentinel path) or `message.content` extracts to a string. -/
def goodBody (j : JVal) : Bool :=
  match extractContent j with
  | .ok (.jstr _) => true
  | _ => false

/-- Whether a final-synthesis attempt cannot make the loop propagate an
exception or return a non-string. -/
def finalOk : FinalAttempt → Bool
  | .body j => !(pyTruthy j) || goodBody j
  | .httpErr _ => true
  | .exn _ => true

theorem final_go_okstr (att : Nat → FinalAttempt) (maxRetries : Nat)
    (h : ∀ i, finalOk (att i) = true) :
    ∀ (fuel rc : Nat),
      isOkStr (generate_final_summary_go att maxRetries rc fuel).result = true := by
  intro fuel
  induction fuel with
  | zero => intro rc; rfl
  | succ fuel ih =>
    intro rc
    rw [generate_final_summary_go]
    cases ha : att rc with
    | body j =>
      have hok := h rc
      rw [ha] at hok
      by_cases ht : pyTruthy j
      · have hgood : goodBody j = true := by
          simpa [finalOk, ht] using hok
        cases hx : extractContent j with
        | ok v =>
          cases v with
          | jstr s => simp [ht, hx, isOkStr]
          | jnull => rw [goodBody, hx] at hgood; exact absurd hgood (by simp)
          | jbool b => rw [goodBody, hx] at hgood; exact absurd hgood (by simp)
          | jnum n => rw [goodBody, hx] at hgood; exact absurd hgood (by simp)
          | jarr l => rw [goodBody, hx] at hgood; exact absurd hgood (by simp)
          | jobj l => rw [goodBody, hx] at hgood; exact absurd hgood (by simp)
        | error e => rw [goodBody, hx] at hgood; exact absurd hgood (by simp)
      · simp only [ht, if_false, Bool.false_eq_true]
        rfl
    | httpErr m =>
      by_cases hle : rc + 1 ≤ maxRetries
      · simp only [hle, if_pos]
        exact ih (rc + 1)
      · simp only [hle, if_false]
        rfl
    | exn m => rfl

/-- C5 counterexample: a final-synthesis response that is 2xx with a
parsed, truthy JSON body lacking the `message` key makes the pipeline
propagate a `KeyError` to its caller instead of returning a string — the
claim that the entry point never propagates a raised fault is false on
the code (`final_response['message']['content']`, review.py line 317, is
outside every `try`). -/
theorem C5_counterexample :
    (summarize_text_parallel [str "x"] (fun _ => PyResult.ret (.jstr (str "Good")))
        (fun _ => FinalAttempt.body (.jobj [(str "status", .jstr (str "done"))]))).result
      = .error (.keyError (str "message")) ∧
    isOkStr (summarize_text_parallel [str "x"] (fun _ => PyResult.ret (.jstr (str "Good")))
        (fun _ => FinalAttempt.body (.jobj [(str "status", .jstr (str "done"))]))).result
      = false := by
  exact ⟨rfl, rfl⟩

/-- C5 (amended): for every input, every chunk-task behaviour (including
raised faults, which the dispatcher converts into error strings), and
every final-synthesis behaviour in which each parsed response body is
either falsy or carries a string at `message.content`, the pipeline
returns a string and propagates no fault.  Without that restriction on
the final response body the property fails (see the counterexample): a
truthy parsed body without a string at `message.content` makes the
pipeline propagate a `KeyError`/`TypeError`. -/
theorem C5_always_returns_text (chunks : List Str) (taskOut : Nat → PyResult)
    (att : Nat → FinalAttempt) (h : ∀ i, finalOk (att i) = true) :
    isOkStr (summarize_text_parallel chunks taskOut att).result = true := by
  cases hn : ((processedSummaries chunks.length taskOut).filter
      (fun v => !(isSoftJ v))).isEmpty with
  | true =>
    simp only [summarize_text_parallel, hn, if_pos]
    rfl
  | false =>
    simp only [summarize_text_parallel, hn, Bool.false_eq_true, if_false]
    rw [generate_final_summary]
    exact final_go_okstr att MAX_RETRIES h (MAX_RETRIES + 1) 0

theorem C5_always_returns_text_witness :
    isOkStr (summarize_text_parallel [str "x"]
      (fun i => if i = 0 then PyResult.exc (str "boom") else PyResult.ret (.jstr (str "Good")))
      (fun _ => FinalAttempt.body
        (.jobj [(str "message", .jobj [(str "content", .jstr (str "FINAL"))])]))).result
      = true := by
  exact C5_always_returns_text [str "x"]
    (fun i => if i = 0 then PyResult.exc (str "boom") else PyResult.ret (.jstr (str "Good")))
    (fun _ => FinalAttempt.body
      (.jobj [(str "message", .jobj [(str "content", .jstr (str "FINAL"))])]))
    (fun i => rfl)

/-! ## C10 -/

/-- Whether a value is a string. -/
def isJStr : JVal → Bool
  | .jstr _ => true
  | _ => false

/-- C10 counterexample: a 2xx response whose body parses to
`{"message": {"content": []}}` makes `summarize_chunk_wrapper` return the
list `[]` — a non-string — so the claim that the wrapper returns a string
for every backend behaviour (including malformed bodies) is false on the
code; such a value also slips past the `"Error"`-prefix failure
classification as a success. -/
theorem C10_counterexample :
    summarize_chunk_wrapper 1
        (.body (.jobj [(str "message", .jobj [(str "content", .jarr [])])]))
      = .jarr [] ∧
    isJStr (summarize_chunk_wrapper 1
        (.body (.jobj [(str "message", .jobj [(str "content", .jarr [])])]))) = false := by
  exact ⟨rfl, rfl⟩

/-- C10 (amended): `summarize_chunk_wrapper` never propagates an
exception — every failure raised inside it is converted by its handlers —
and for every backend behaviour it either (a) returns the successfully
extracted `message.content` value unchanged (a string for well-formed
bodies, but a non-string sized value such as a list or dict is returned
as-is), or (b) returns a string beginning with `"Error"`, so the
prefix-based classification recognises every failure-path string it
produces. -/
theorem C10_wrapper_taxonomy (chunkId : Nat) (resp : ChunkResp) :
    (∃ j v, resp = .body j ∧ extractContent j = .ok v ∧
      summarize_chunk_wrapper chunkId resp = v) ∨
    (∃ s, summarize_chunk_wrapper chunkId resp = .jstr s ∧
      (str "Error").isPrefixOf s = true) := by
  cases resp with
  | body j =>
    cases hx : extractContent j with
    | ok v =>
      exact Or.inl ⟨j, v, rfl, hx, by simp [summarize_chunk_wrapper, summarize_chunk_inner, hx]⟩
    | error e =>
      refine Or.inr ⟨errProcChunk chunkId e,
        by simp [summarize_chunk_wrapper, summarize_chunk_inner, hx], ?_⟩
      simpa [isSoftJ] using isSoftJ_errProcChunk chunkId e
  | jsonError m =>
    refine Or.inr ⟨errProcChunk chunkId (.valueError m), rfl, ?_⟩
    simpa [isSoftJ] using isSoftJ_errProcChunk chunkId (.valueError m)
  | timeout m =>
    refine Or.inr ⟨errInChunk chunkId
      (str "Request timed out. Consider increasing the timeout or reducing chunk size."),
      rfl, ?_⟩
    simpa [isSoftJ] using isSoftJ_errInChunk chunkId
      (str "Request timed out. Consider increasing the timeout or reducing chunk size.")
  | connectError m =>
    refine Or.inr ⟨errInChunk chunkId
      (str "Could not connect to Ollama API. Check if Ollama is running correctly."),
      rfl, ?_⟩
    simpa [isSoftJ] using isSoftJ_errInChunk chunkId
      (str "Could not connect to Ollama API. Check if Ollama is running correctly.")
  | statusError code =>
    refine Or.inr ⟨errInChunk chunkId
      (str "HTTP error from Ollama API. Status code: " ++ natStr code), rfl, ?_⟩
    simpa [isSoftJ] using isSoftJ_errInChunk chunkId
      (str "HTTP error from Ollama API. Status code: " ++ natStr code)
  | transportError m =>
    refine Or.inr ⟨errProcChunk chunkId (.attributeError m), rfl, ?_⟩
    simpa [isSoftJ] using isSoftJ_errProcChunk chunkId (.attributeError m)
  | otherError m =>
    refine Or.inr ⟨errProcChunk chunkId (.otherExc m), rfl, ?_⟩
    simpa [isSoftJ] using isSoftJ_errProcChunk chunkId (.otherExc m)

/-! ## Lemmas about the segmenter -/

theorem splitOnSep_ne_nil (sep : Str) : ∀ (t acc : Str), splitOnSep sep acc t ≠ [] := by
  intro t
  induction t with
  | nil =>
    intro acc
    rw [splitOnSep]
    exact List.cons_ne_nil _ _
  | cons c cs ih =>
    intro acc
    rw [splitOnSep]
    split
    · exact List.cons_ne_nil _ _
    · exact ih (c :: acc)

theorem splitPieces_ne_nil (text sep : Str) (h : text ≠ []) : splitPieces text sep ≠ [] := by
  rw [splitPieces]
  split
  · cases text with
    | nil => exact absurd rfl h
    | cons c cs => exact List.cons_ne_nil _ _
  · exact splitOnSep_ne_nil sep text []

theorem chooseSplit_ne_nil (text : Str) (maxChunkChars : Nat) (h : text ≠ []) :
    ∀ (seps : List Str), (chooseSplit text maxChunkChars seps).2 ≠ [] := by
  intro seps
  induction seps with
  | nil => exact List.cons_ne_nil _ _
  | cons sep rest ih =>
    rw [chooseSplit]
    split
    · exact splitPieces_ne_nil text sep h
    · exact ih

theorem mergePieces_ne_nil (sep : Str) (maxChunkChars overlapChars : Nat) :
    ∀ (ps : List Str) (cur : Str),
      mergePieces sep maxChunkChars overlapChars cur ps ≠ [] := by
  intro ps
  induction ps with
  | nil => intro cur; exact List.cons_ne_nil _ _
  | cons p ps ih =>
    intro cur
    rw [mergePieces]
    dsimp only
    split
    · exact ih _
    · split
      · exact List.cons_ne_nil _ _
      · exact List.cons_ne_nil _ _

theorem chooseSplit_bound (text : Str) (maxChunkChars : Nat) :
    ∀ (seps : List Str),
      (∃ sep ∈ seps,
        (splitPieces text sep).all (fun p => decide (p.length ≤ maxChunkChars)) = true) →
      ∀ p ∈ (chooseSplit text maxChunkChars seps).2, p.length ≤ maxChunkChars := by
  intro seps
  induction seps with
  | nil =>
    rintro ⟨sep, hmem, _⟩
    exact absurd hmem (List.not_mem_nil sep)
  | cons sep rest ih =>
    rintro ⟨s0, hmem, hall⟩ p hp
    rw [chooseSplit] at hp
    by_cases htest :
        (splitPieces text sep).all (fun q => decide (q.length ≤ maxChunkChars)) = true
    · rw [if_pos htest] at hp
      have := List.all_eq_true.mp htest p hp
      exact of_decide_eq_true this
    · rw [if_neg htest] at hp
      rcases List.mem_cons.mp hmem with heq | hmem2
      · subst heq
        exact absurd hall htest
      · exact ih ⟨s0, hmem2, hall⟩ p hp

theorem char_split_all_small (text : Str) (maxChunkChars : Nat) (h : 1 ≤ maxChunkChars) :
    (splitPieces text (str "")).all (fun p => decide (p.length ≤ maxChunkChars)) = true := by
  rw [splitPieces, if_pos (by rfl)]
  rw [List.all_eq_true]
  intro p hp
  rcases List.mem_map.mp hp with ⟨c, _, rfl⟩
  exact decide_eq_true (by simpa using h)

theorem mergePieces_bound (sep : Str) (maxChunkChars overlapChars : Nat) :
    ∀ (ps : List Str) (cur : Str), (∀ p ∈ ps, p.length ≤ maxChunkChars) →
      cur.length ≤ maxChunkChars →
      ∀ c ∈ mergePieces sep maxChunkChars overlapChars cur ps, c.length ≤ maxChunkChars := by
  intro ps
  induction ps with
  | nil =>
    intro cur _ hcur c hc
    rcases List.mem_singleton.mp hc with rfl
    exact hcur
  | cons p ps ih =>
    intro cur hps hcur c hc
    rw [mergePieces] at hc
    dsimp only at hc
    have hp0 : p.length ≤ maxChunkChars := hps p (List.mem_cons_self p ps)
    have hps2 : ∀ q ∈ ps, q.length ≤ maxChunkChars :=
      fun q hq => hps q (List.mem_cons_of_mem p hq)
    by_cases h1 : (cur ++ sep ++ p).length ≤ maxChunkChars
    · rw [if_pos h1] at hc
      exact ih (cur ++ sep ++ p) hps2 h1 c hc
    · rw [if_neg h1] at hc
      by_cases h2 : (lastChars overlapChars cur ++ sep ++ p).length ≤ maxChunkChars
      · rw [if_pos h2] at hc
        rcases List.mem_cons.mp hc with rfl | hc2
        · exact hcur
        · exact ih _ hps2 h2 c hc2
      · rw [if_neg h2] at hc
        rcases List.mem_cons.mp hc with rfl | hc2
        · exact hcur
        · exact ih p hps2 hp0 c hc2

/-! ## C8 -/

/-- C8: the segmenter yields an empty chunk sequence for empty input, at
least one chunk for non-empty input, and — whenever the budget admits at
least one character, so that no single unsplittable unit forces an
oversize chunk — never a chunk longer than `maxChunkChars`. -/
theorem C8_segmenter_shape (text : Str) (maxChunkChars overlapChars : Nat) :
    segmentText [] maxChunkChars overlapChars = [] ∧
    (text ≠ [] → 1 ≤ (segmentText text maxChunkChars overlapChars).length) ∧
    (1 ≤ maxChunkChars →
      ∀ c ∈ segmentText text maxChunkChars overlapChars, c.length ≤ maxChunkChars) := by
  refine ⟨rfl, ?_, ?_⟩
  · intro hne
    have hempty : text.isEmpty = false := by
      cases ht : text.isEmpty with
      | false => rfl
      | true => exact absurd (List.isEmpty_iff.mp ht) hne
    rw [segmentText]
    rw [hempty]
    simp only [Bool.false_eq_true, if_false]
    rcases hc : chooseSplit text maxChunkChars SEPARATORS with ⟨sep, ps⟩
    have hps : ps ≠ [] := by
      have := chooseSplit_ne_nil text maxChunkChars hne SEPARATORS
      rw [hc] at this
      exact this
    cases ps with
    | nil => exact absurd rfl hps
    | cons p rest =>
      have := mergePieces_ne_nil sep maxChunkChars overlapChars rest p
      cases hm : mergePieces sep maxChunkChars overlapChars p rest with
      | nil => exact absurd hm this
      | cons a l => simp [hm]
  · intro hmax c hc
    rw [segmentText] at hc
    by_cases hempty : text.isEmpty
    · rw [if_pos hempty] at hc
      exact absurd hc (List.not_mem_nil c)
    · rw [if_neg hempty] at hc
      have hne : text ≠ [] := by
        intro h
        exact hempty (by simp [h])
      rcases hcs : chooseSplit text maxChunkChars SEPARATORS with ⟨sep, ps⟩
      rw [hcs] at hc
      have hbound : ∀ p ∈ ps, p.length ≤ maxChunkChars := by
        have h1 := chooseSplit_bound text maxChunkChars SEPARATORS
          ⟨str "", by simp [SEPARATORS], char_split_all_small text maxChunkChars hmax⟩
        rw [hcs] at h1
        exact h1
      cases ps with
      | nil => exact absurd hc (List.not_mem_nil c)
      | cons p rest =>
        exact mergePieces_bound sep maxChunkChars overlapChars rest p
          (fun q hq => hbound q (List.mem_cons_of_mem p hq))
          (hbound p (List.mem_cons_self p rest)) c hc

theorem C8_segmenter_shape_witness :
    segmentText [] 3 0 = [] ∧
    1 ≤ (segmentText (str "ab cd") 3 0).length ∧
    (segmentText (str "ab cd") 3 0).all (fun c => decide (c.length ≤ 3)) = true := by
  have h := C8_segmenter_shape (str "ab cd") 3 0
  refine ⟨h.1, h.2.1 (by decide), ?_⟩
  rw [List.all_eq_true]
  intro c hc
  exact decide_eq_true (h.2.2 (by omega) c hc)

/-! ## C9 -/

theorem splitOnSep_repl_last :
    ∀ (n : Nat) (acc : Str),
      splitOnSep ['\n', '\n'] acc (List.replicate n 'a')
        = [acc.reverse ++ List.replicate n 'a'] := by
  intro n
  induction n with
  | zero =>
    intro acc
    rw [List.replicate_zero, splitOnSep]
    simp
  | succ n ih =>
    intro acc
    rw [List.replicate_succ, splitOnSep]
    rw [dif_neg (by simp [List.isPrefixOf])]
    rw [ih ('a' :: acc)]
    simp [List.replicate_succ]

theorem splitOnSep_repl_sep :
    ∀ (n : Nat) (acc rest : Str),
      splitOnSep ['\n', '\n'] acc (List.replicate n 'a' ++ '\n' :: '\n' :: rest)
        = (acc.reverse ++ List.replicate n 'a') :: splitOnSep ['\n', '\n'] [] rest := by
  intro n
  induction n with
  | zero =>
    intro acc rest
    rw [List.replicate_zero, List.nil_append, splitOnSep]
    rw [dif_pos (by simp [List.isPrefixOf])]
    simp
  | succ n ih =>
    intro acc rest
    rw [List.replicate_succ, List.cons_append, splitOnSep]
    rw [dif_neg (by simp [List.isPrefixOf])]
    rw [ih ('a' :: acc)]
    simp [List.replicate_succ]

/-- The 120,000-character input of end-to-end scenario A: three runs of
`'a'`s (39,999 + 39,999 + 39,998 characters) separated by two paragraph
breaks. -/
def bigText : Str :=
  List.replicate 39999 'a' ++ str "\n\n" ++ List.replicate 39999 'a' ++ str "\n\n"
    ++ List.replicate 39998 'a'

theorem bigText_length : bigText.length = 120000 := by
  have h2 : (str "\n\n").length = 2 := rfl
  simp only [bigText, List.length_append, List.length_replicate, h2]

theorem split_bigText :
    splitOnSep (str "\n\n") [] bigText
      = [List.replicate 39999 'a', List.replicate 39999 'a', List.replicate 39998 'a'] := by
  have hsep : str "\n\n" = ['\n', '\n'] := rfl
  have hshape : bigText = List.replicate 39999 'a' ++ '\n' :: '\n' ::
      (List.replicate 39999 'a' ++ '\n' :: '\n' :: List.replicate 39998 'a') := by
    simp only [bigText, hsep, List.append_assoc, List.cons_append, List.nil_append]
  rw [hsep, hshape, splitOnSep_repl_sep, splitOnSep_repl_sep, splitOnSep_repl_last]
  simp only [List.reverse_nil, List.nil_append]

theorem chooseSplit_bigText :
    chooseSplit bigText 40000 SEPARATORS
      = (str "\n\n", [List.replicate 39999 'a', List.replicate 39999 'a',
          List.replicate 39998 'a']) := by
  have hp : splitPieces bigText (str "\n\n")
      = [List.replicate 39999 'a', List.replicate 39999 'a', List.replicate 39998 'a'] := by
    rw [splitPieces, if_neg (by decide)]
    exact split_bigText
  have hall : ([List.replicate 39999 'a', List.replicate 39999 'a',
      List.replicate 39998 'a']).all (fun p => decide (p.length ≤ 40000)) = true := by
    simp only [List.all_cons, List.all_nil, List.length_replicate]
    decide
  simp only [SEPARATORS]
  rw [chooseSplit]
  rw [hp, if_pos hall]

theorem merge_bigText :
    mergePieces (str "\n\n") 40000 100 (List.replicate 39999 'a')
      [List.replicate 39999 'a', List.replicate 39998 'a']
      = [List.replicate 39999 'a', List.replicate 39999 'a', List.replicate 39998 'a'] := by
  have h2 : (str "\n\n").length = 2 := rfl
  have hc1 : ¬ ((List.replicate 39999 'a' ++ str "\n\n"
      ++ List.replicate 39999 'a').length ≤ 40000) := by
    simp only [List.length_append, List.length_replicate, h2]
    omega
  have ho1 : ¬ ((lastChars 100 (List.replicate 39999 'a') ++ str "\n\n"
      ++ List.replicate 39999 'a').length ≤ 40000) := by
    simp only [lastChars, List.length_append, List.length_drop, List.length_replicate, h2]
    omega
  have hc2 : ¬ ((List.replicate 39999 'a' ++ str "\n\n"
      ++ List.replicate 39998 'a').length ≤ 40000) := by
    simp only [List.length_append, List.length_replicate, h2]
    omega
  have ho2 : ¬ ((lastChars 100 (List.replicate 39999 'a') ++ str "\n\n"
      ++ List.replicate 39998 'a').length ≤ 40000) := by
    simp only [lastChars, List.length_append, List.length_drop, List.length_replicate, h2]
    omega
  rw [mergePieces]
  dsimp only
  rw [if_neg hc1, if_neg ho1]
  rw [mergePieces]
  dsimp only
  rw [if_neg hc2, if_neg ho2]
  rw [mergePieces]

theorem segmentText_bigText :
    segmentText bigText 40000 100
      = [List.replicate 39999 'a', List.replicate 39999 'a', List.replicate 39998 'a'] := by
  have hne : bigText.isEmpty = false := by
    cases hb : bigText.isEmpty with
    | false => rfl
    | true =>
      have hnil := List.isEmpty_iff.mp hb
      have hl := bigText_length
      rw [hnil] at hl
      exact absurd hl (by decide)
  rw [segmentText, hne]
  simp only [Bool.false_eq_true, if_false]
  rw [chooseSplit_bigText]
  exact merge_bigText

/-- C9: end-to-end scenario A at a concrete 120,000-character input
(three paragraph-separated runs) with `maxChunkChars = 40000` and
`overlapChars = 100`: the segmenter yields exactly 3 chunks; with every
chunk call and the single final-synthesis call succeeding on the first
attempt, the pipeline issues exactly one final call and returns the final
call's content string unchanged. -/
theorem C9_scenario_A :
    bigText.length = 120000 ∧
    (segmentText bigText CHUNK_SIZE CHUNK_OVERLAP).length = 3 ∧
    (summarize bigText
        (fun _ _ => ChunkResp.body
          (.jobj [(str "message", .jobj [(str "content",
            .jstr (str "A technical extraction"))])]))
        (fun _ => FinalAttempt.body
          (.jobj [(str "message", .jobj [(str "content",
            .jstr (str "FINAL SUMMARY"))])]))).result
      = .ok (.jstr (str "FINAL SUMMARY")) ∧
    (summarize bigText
        (fun _ _ => ChunkResp.body
          (.jobj [(str "message", .jobj [(str "content",
            .jstr (str "A technical extraction"))])]))
        (fun _ => FinalAttempt.body
          (.jobj [(str "message", .jobj [(str "content",
            .jstr (str "FINAL SUMMARY"))])]))).finalCalls = 1 := by
  have hseg : segmentText bigText CHUNK_SIZE CHUNK_OVERLAP
      = [List.replicate 39999 'a', List.replicate 39999 'a', List.replicate 39998 'a'] :=
    segmentText_bigText
  refine ⟨bigText_length, ?_, ?_, ?_⟩
  · rw [hseg]
    rfl
  · simp only [summarize]
    rw [hseg]
    rfl
  · simp only [summarize]
    rw [hseg]
    rfl
